import Mathlib

/-!
# SpectraRAG inter-stage coordination layer — a shallow embedding

This development embeds the message-passing core of the SpectraRAG
repository (`src/mcp/message_protocol.py`, `src/mcp/mcp_agents.py`,
`src/mcp/coordinator.py`) into Lean 4 and proves properties of the
embedded definitions.

Modelling conventions:
* Python dictionaries become association lists (`List (String × _)`);
  `d[k]` and `d.get(k)` become `alGet`, dictionary assignment becomes
  `alSet`.
* Python values stored in message payloads become the inductive `PyValue`.
* `asyncio.Queue` objects become `List MCPMessage` (head = front of the
  queue); a queue's identity is its key in the bus's `subscribers` map.
* Real time in `send_and_wait_response` is discretised: one time unit is
  one full polling pass over the queue; messages published onto the
  sender's queue by concurrently running listeners are modelled by an
  arrival schedule `arrivals : Nat → List MCPMessage` giving the messages
  enqueued at each tick.
* External capabilities (the langgraph agent graphs) are parameters of
  type `… → Except String …`; `Except.error` models a raised exception.
-/

set_option autoImplicit false

namespace SpectraRAG

/-- Python values appearing in message payloads. -/
inductive PyValue where
  | vstr : String → PyValue
  | vint : Int → PyValue
  | vbool : Bool → PyValue
  | vnone : PyValue
  | vlist : List PyValue → PyValue
  | vdict : List (String × PyValue) → PyValue

/-- A Python dict with string keys. -/
abbrev PyDict := List (String × PyValue)

/-- `src/mcp/message_protocol.py`: `MCPMessageType` enumeration. -/
inductive MCPMessageType where
  | INGESTION_REQUEST
  | INGESTION_RESPONSE
  | RETRIEVAL_REQUEST
  | RETRIEVAL_RESPONSE
  | CONTEXT_REQUEST
  | CONTEXT_RESPONSE
  | LLM_REQUEST
  | LLM_RESPONSE
  | GENERAL_QUERY_REQUEST
  | GENERAL_QUERY_RESPONSE
  | ERROR
  deriving DecidableEq, Repr

/-- `MCPMessageType.value`: the string carried by each enum member. -/
def MCPMessageType.value : MCPMessageType → String
  | .INGESTION_REQUEST => "INGESTION_REQUEST"
  | .INGESTION_RESPONSE => "INGESTION_RESPONSE"
  | .RETRIEVAL_REQUEST => "RETRIEVAL_REQUEST"
  | .RETRIEVAL_RESPONSE => "RETRIEVAL_RESPONSE"
  | .CONTEXT_REQUEST => "CONTEXT_REQUEST"
  | .CONTEXT_RESPONSE => "CONTEXT_RESPONSE"
  | .LLM_REQUEST => "LLM_REQUEST"
  | .LLM_RESPONSE => "LLM_RESPONSE"
  | .GENERAL_QUERY_REQUEST => "GENERAL_QUERY_REQUEST"
  | .GENERAL_QUERY_RESPONSE => "GENERAL_QUERY_RESPONSE"
  | .ERROR => "ERROR"

/-- `src/mcp/message_protocol.py`: the `MCPMessage` dataclass.
`trace_id` defaults to a fresh uuid and `timestamp` to `time.time()` in
the source; in the embedding callers always supply `trace_id` explicitly
(as every call site in the repository does) and `timestamp` is modelled
as a `Nat` tick, irrelevant to all routing logic. -/
structure MCPMessage where
  sender : String
  receiver : String
  type : MCPMessageType
  trace_id : String
  timestamp : Nat
  payload : PyDict
  metadata : PyDict

/-- Association-list lookup: Python `d[k]` / `d.get(k)` (first matching
key wins, mirroring dict key uniqueness). -/
def alGet {α : Type} : List (String × α) → String → Option α
  | [], _ => none
  | (k', v) :: rest, k => if k' = k then some v else alGet rest k

/-- Association-list assignment: Python `d[k] = v`. -/
def alSet {α : Type} : List (String × α) → String → α → List (String × α)
  | [], k, v => [(k, v)]
  | (k', v') :: rest, k, v =>
      if k' = k then (k, v) :: rest else (k', v') :: alSet rest k v

theorem alGet_alSet_same {α : Type} (l : List (String × α)) (k : String) (v : α) :
    alGet (alSet l k v) k = some v := by
  induction l with
  | nil => simp [alGet, alSet]
  | cons p rest ih =>
      obtain ⟨k', v'⟩ := p
      by_cases h : k' = k
      · simp [alGet, alSet, h]
      · simp [alGet, alSet, h, ih]

theorem alGet_alSet_ne {α : Type} (l : List (String × α)) (k k' : String) (v : α)
    (h : k ≠ k') : alGet (alSet l k v) k' = alGet l k' := by
  induction l with
  | nil => simp [alGet, alSet, h]
  | cons p rest ih =>
      obtain ⟨k0, v0⟩ := p
      by_cases h0 : k0 = k
      · subst h0
        simp [alGet, alSet, h]
      · simp only [alSet, if_neg h0, alGet]
        by_cases h1 : k0 = k'
        · simp [h1]
        · simp [h1, ih]

theorem alGet_append_ne {α : Type} (l : List (String × α)) (k k' : String) (v : α)
    (h : k ≠ k') : alGet (l ++ [(k, v)]) k' = alGet l k' := by
  induction l with
  | nil => simp [alGet, h]
  | cons p rest ih =>
      obtain ⟨k0, v0⟩ := p
      by_cases h0 : k0 = k'
      · simp [alGet, h0]
      · simp [alGet, h0, ih]

theorem alGet_mem {α : Type} (l : List (String × α)) (k : String) (v : α)
    (h : alGet l k = some v) : (k, v) ∈ l := by
  induction l with
  | nil => simp [alGet] at h
  | cons p rest ih =>
      obtain ⟨k0, v0⟩ := p
      by_cases h0 : k0 = k
      · subst h0
        simp [alGet] at h
        simp [h]
      · simp only [alGet, if_neg h0] at h
        exact List.mem_cons_of_mem _ (ih h)

/-- `src/mcp/message_protocol.py`: the `MCPMessageBus` state.
The source also initialises a `message_queue` dict that no code ever
reads or writes afterwards; it is omitted as dead state. -/
structure MCPMessageBus where
  session_id : String
  subscribers : List (String × List MCPMessage)
  message_history : List MCPMessage

/-- `MCPMessageBus.__init__(session_id)`. -/
def MCPMessageBus.mkNew (session_id : String) : MCPMessageBus :=
  { session_id := session_id, subscribers := [], message_history := [] }

/-- `MCPMessageBus.subscribe`: create the agent's queue on first call,
return the existing one afterwards.  The returned queue is identified by
the agent's name (the key in `subscribers`). -/
def MCPMessageBus.subscribe (bus : MCPMessageBus) (agent_name : String) :
    MCPMessageBus :=
  match alGet bus.subscribers agent_name with
  | some _ => bus
  | none => { bus with subscribers := bus.subscribers ++ [(agent_name, [])] }

/-- `MCPMessageBus.publish`: append to history; if the receiver has a
queue, enqueue there and return `true`, otherwise warn and return
`false`. -/
def MCPMessageBus.publish (bus : MCPMessageBus) (m : MCPMessage) :
    MCPMessageBus × Bool :=
  let bus1 := { bus with message_history := bus.message_history ++ [m] }
  match alGet bus1.subscribers m.receiver with
  | some q =>
      ({ bus1 with subscribers := alSet bus1.subscribers m.receiver (q ++ [m]) },
       true)
  | none => (bus1, false)

/-- The queue currently subscribed under `name` (empty when absent). -/
def senderQueue (bus : MCPMessageBus) (name : String) : List MCPMessage :=
  (alGet bus.subscribers name).getD []

/-- Does the queue hold a message whose `trace_id` matches? -/
def hasMatch (tid : String) (q : List MCPMessage) : Bool :=
  q.any (fun m => m.trace_id == tid)

/-- One polling pass of the `send_and_wait_response` wait loop over the
current queue contents: pop from the front; a mismatching message is put
back at the tail (`await response_queue.put(response)`); a matching one
is returned.  `putback` accumulates the already re-enqueued messages. -/
def scanQueue (tid : String) :
    List MCPMessage → List MCPMessage → Option MCPMessage × List MCPMessage
  | [], putback => (none, putback)
  | m :: rest, putback =>
      if m.trace_id == tid then (some m, rest ++ putback)
      else scanQueue tid rest (putback ++ [m])

/-- The polling loop of `send_and_wait_response`, discretised: at each
tick the messages `arrivals t` published onto the sender's queue by
concurrently running listeners are appended, then one full pass scans
the queue; `fuel` is the number of remaining time units before the
timeout ceiling. -/
def waitLoop (tid : String) (arrivals : Nat → List MCPMessage) :
    Nat → Nat → List MCPMessage → Option MCPMessage × List MCPMessage
  | _, 0, q => (none, q)
  | t, fuel + 1, q =>
      let q1 := q ++ arrivals t
      match scanQueue tid q1 [] with
      | (some m, rest) => (some m, rest)
      | (none, q2) => waitLoop tid arrivals (t + 1) fuel q2

/-- The Python default for the `timeout` parameter of
`MCPMessageBus.send_and_wait_response`. -/
def sendAndWaitDefaultTimeout : Nat := 30

/-- `MCPMessageBus.send_and_wait_response`: subscribe the sender's own
queue, publish the request, then poll the sender's queue until a message
with the matching `trace_id` arrives or `timeout` time units elapse. -/
def MCPMessageBus.send_and_wait_response (bus : MCPMessageBus)
    (message : MCPMessage) (arrivals : Nat → List MCPMessage) (timeout : Nat) :
    Option MCPMessage × MCPMessageBus :=
  let bus1 := bus.subscribe message.sender
  let bus2 := (bus1.publish message).1
  let q0 := senderQueue bus2 message.sender
  let res := waitLoop message.trace_id arrivals 0 timeout q0
  (res.1, { bus2 with subscribers := alSet bus2.subscribers message.sender res.2 })

/-- `get_message_history(trace_id)` on a history list. -/
def get_message_history (history : List MCPMessage) (trace_id : String) :
    List MCPMessage :=
  history.filter (fun m => m.trace_id == trace_id)

/-- The process-wide registry `message_buses` keyed by session id. -/
abbrev BusRegistry := List (String × MCPMessageBus)

/-- `get_message_bus(session_id)`: lazily create a session's bus. -/
def get_message_bus (reg : BusRegistry) (session_id : String) :
    MCPMessageBus × BusRegistry :=
  match alGet reg session_id with
  | some b => (b, reg)
  | none =>
      (MCPMessageBus.mkNew session_id,
       reg ++ [(session_id, MCPMessageBus.mkNew session_id)])

/-- Publishing a message on one session's bus, as it acts on the
registry: look the bus up (creating it if absent) and store the
published-to bus back under the same key. -/
def publishInSession (reg : BusRegistry) (session_id : String)
    (m : MCPMessage) : BusRegistry :=
  let p := get_message_bus reg session_id
  alSet p.2 session_id (p.1.publish m).1

/-- Registry well-formedness: every stored bus carries the session id it
is keyed under (`MCPMessageBus.__init__` stores the key). -/
def wfRegistry (reg : BusRegistry) : Prop :=
  ∀ p ∈ reg, (p.2 : MCPMessageBus).session_id = p.1

theorem hasMatch_append (tid : String) (a b : List MCPMessage) :
    hasMatch tid (a ++ b) = (hasMatch tid a || hasMatch tid b) := by
  simp [hasMatch, List.any_append]

theorem scanQueue_no_match (tid : String) :
    ∀ (q acc : List MCPMessage), hasMatch tid q = false →
      scanQueue tid q acc = (none, acc ++ q) := by
  intro q
  induction q with
  | nil => intro acc _; simp [scanQueue]
  | cons m rest ih =>
      intro acc h
      simp only [hasMatch, List.any_cons, Bool.or_eq_false_iff] at h
      simp only [scanQueue, h.1, if_neg]
      rw [ih (acc ++ [m]) h.2]
      simp

theorem scanQueue_split (tid : String) (q2 : List MCPMessage) (r : MCPMessage)
    (hr : r.trace_id = tid) :
    ∀ (q1 acc : List MCPMessage), hasMatch tid q1 = false →
      scanQueue tid (q1 ++ r :: q2) acc = (some r, q2 ++ acc ++ q1) := by
  intro q1
  induction q1 with
  | nil =>
      intro acc _
      simp [scanQueue, hr]
  | cons m rest ih =>
      intro acc h
      simp only [hasMatch, List.any_cons, Bool.or_eq_false_iff] at h
      have hcond : ¬ (m.trace_id == tid) = true := by simp [h.1]
      simp only [List.cons_append, scanQueue, List.append_eq]
      rw [if_neg hcond, ih (acc ++ [m]) h.2]
      simp

theorem waitLoop_none (tid : String) (arrivals : Nat → List MCPMessage) :
    ∀ (fuel t : Nat) (q : List MCPMessage), hasMatch tid q = false →
      (∀ d, d < fuel → hasMatch tid (arrivals (t + d)) = false) →
      (waitLoop tid arrivals t fuel q).1 = none ∧
      hasMatch tid (waitLoop tid arrivals t fuel q).2 = false := by
  intro fuel
  induction fuel with
  | zero => intro t q hq _; simp [waitLoop, hq]
  | succ f ih =>
      intro t q hq harr
      have h0 : hasMatch tid (arrivals t) = false := by
        have := harr 0 (Nat.succ_pos f)
        simpa using this
      have hq1 : hasMatch tid (q ++ arrivals t) = false := by
        rw [hasMatch_append, hq, h0]
        rfl
      simp only [waitLoop]
      rw [scanQueue_no_match tid (q ++ arrivals t) [] hq1]
      simp only [List.nil_append]
      exact ih (t + 1) (q ++ arrivals t) hq1 (fun d hd => by
        have : t + 1 + d = t + (d + 1) := by omega
        rw [this]
        exact harr (d + 1) (by omega))

theorem waitLoop_find (tid : String) (arrivals : Nat → List MCPMessage)
    (m : MCPMessage) (hm : m.trace_id = tid) :
    ∀ (fuel d t : Nat) (q : List MCPMessage), d < fuel →
      hasMatch tid q = false →
      (∀ j, j < d → hasMatch tid (arrivals (t + j)) = false) →
      arrivals (t + d) = [m] →
      waitLoop tid arrivals t fuel q = (some m, q) ∨
      ∃ qf, waitLoop tid arrivals t fuel q = (some m, qf) ∧
        hasMatch tid qf = false := by
  intro fuel
  induction fuel with
  | zero => intro d t q hd; omega
  | succ f ih =>
      intro d t q hd hq hbefore hat
      cases d with
      | zero =>
          right
          refine ⟨q, ?_, hq⟩
          simp only [waitLoop]
          have hat0 : arrivals t = [m] := by simpa using hat
          rw [hat0, scanQueue_split tid [] m hm q [] hq]
          simp
      | succ j =>
          have h0 : hasMatch tid (arrivals t) = false := by
            have := hbefore 0 (Nat.succ_pos j)
            simpa using this
          have hq1 : hasMatch tid (q ++ arrivals t) = false := by
            rw [hasMatch_append, hq, h0]
            rfl
          simp only [waitLoop]
          rw [scanQueue_no_match tid (q ++ arrivals t) [] hq1]
          simp only [List.nil_append]
          have step := ih j (t + 1) (q ++ arrivals t) (by omega) hq1
            (fun j' hj' => by
              have : t + 1 + j' = t + (j' + 1) := by omega
              rw [this]
              exact hbefore (j' + 1) (by omega))
            (by
              have : t + 1 + j = t + (j + 1) := by omega
              rw [this]
              exact hat)
          rcases step with h | ⟨qf, h1, h2⟩
          · exact Or.inr ⟨q ++ arrivals t, h, hq1⟩
          · exact Or.inr ⟨qf, h1, h2⟩

theorem alGet_append_self {α : Type} (l : List (String × α)) (k : String) (v : α)
    (h : alGet l k = none) : alGet (l ++ [(k, v)]) k = some v := by
  induction l with
  | nil => simp [alGet]
  | cons p rest ih =>
      obtain ⟨k0, v0⟩ := p
      by_cases h0 : k0 = k
      · simp [alGet, h0] at h
      · simp only [alGet, if_neg h0] at h
        simp only [List.cons_append, alGet, if_neg h0]
        exact ih h

theorem senderQueue_subscribe_self (bus : MCPMessageBus) (s : String) :
    alGet (bus.subscribe s).subscribers s = some (senderQueue bus s) := by
  unfold MCPMessageBus.subscribe senderQueue
  cases h : alGet bus.subscribers s with
  | some q => simp [h]
  | none => simp [h, alGet_append_self bus.subscribers s [] h]

theorem publish_preserves_other_queue (bus : MCPMessageBus) (m : MCPMessage)
    (s : String) (h : m.receiver ≠ s) :
    alGet ((bus.publish m).1).subscribers s = alGet bus.subscribers s := by
  unfold MCPMessageBus.publish
  cases hq : alGet bus.subscribers m.receiver with
  | some q => simp [hq, alGet_alSet_ne _ _ _ _ h]
  | none => simp [hq]

theorem send_and_wait_response_eq (bus : MCPMessageBus) (msg : MCPMessage)
    (arrivals : Nat → List MCPMessage) (timeout : Nat) :
    bus.send_and_wait_response msg arrivals timeout =
      ((waitLoop msg.trace_id arrivals 0 timeout
          (senderQueue (((bus.subscribe msg.sender).publish msg).1) msg.sender)).1,
       { ((bus.subscribe msg.sender).publish msg).1 with
           subscribers :=
             alSet (((bus.subscribe msg.sender).publish msg).1).subscribers
               msg.sender
               (waitLoop msg.trace_id arrivals 0 timeout
                 (senderQueue (((bus.subscribe msg.sender).publish msg).1)
                   msg.sender)).2 }) := rfl

theorem senderQueue_after_send (bus : MCPMessageBus) (msg : MCPMessage)
    (hrs : msg.receiver ≠ msg.sender) :
    senderQueue (((bus.subscribe msg.sender).publish msg).1) msg.sender =
      senderQueue bus msg.sender := by
  unfold senderQueue
  rw [publish_preserves_other_queue _ _ _ hrs,
      senderQueue_subscribe_self bus msg.sender]
  rfl

/-- A message literal with empty payload, for concrete instances. -/
def wMsg (s r tid : String) (ty : MCPMessageType) : MCPMessage :=
  { sender := s, receiver := r, type := ty, trace_id := tid, timestamp := 0,
    payload := [], metadata := [] }

/-- C1: if a message whose `trace_id` equals the request's is published
onto the sender's queue before the timeout elapses, it is returned and
removed from the queue; if no matching message arrives within the
timeout ceiling (honouring the source default of 30 time units), the
call returns `none`. -/
theorem send_and_wait_response_contract
    (bus : MCPMessageBus) (msg : MCPMessage) (arrivals : Nat → List MCPMessage)
    (timeout : Nat)
    (hrs : msg.receiver ≠ msg.sender)
    (hq : hasMatch msg.trace_id (senderQueue bus msg.sender) = false) :
    (∀ t m, t < timeout → m.trace_id = msg.trace_id → arrivals t = [m] →
       (∀ j, j ≠ t → hasMatch msg.trace_id (arrivals j) = false) →
       (bus.send_and_wait_response msg arrivals timeout).1 = some m ∧
       hasMatch msg.trace_id
         (senderQueue (bus.send_and_wait_response msg arrivals timeout).2
           msg.sender) = false) ∧
    ((∀ d, d < timeout → hasMatch msg.trace_id (arrivals d) = false) →
       (bus.send_and_wait_response msg arrivals timeout).1 = none) ∧
    sendAndWaitDefaultTimeout = 30 := by
  have hq0 : hasMatch msg.trace_id
      (senderQueue (((bus.subscribe msg.sender).publish msg).1) msg.sender)
        = false := by
    rw [senderQueue_after_send bus msg hrs]
    exact hq
  rw [send_and_wait_response_eq]
  refine ⟨?_, ?_, rfl⟩
  · intro t m ht hm harr hothers
    have hfind := waitLoop_find msg.trace_id arrivals m hm timeout t 0
      (senderQueue (((bus.subscribe msg.sender).publish msg).1) msg.sender)
      ht hq0
      (fun j hj => by
        have hne : j ≠ t := by omega
        simpa using hothers j hne)
      (by simpa using harr)
    have hex : ∃ qf, waitLoop msg.trace_id arrivals 0 timeout
        (senderQueue (((bus.subscribe msg.sender).publish msg).1) msg.sender)
          = (some m, qf) ∧ hasMatch msg.trace_id qf = false := by
      rcases hfind with h | h
      · exact ⟨_, h, hq0⟩
      · exact h
    rcases hex with ⟨qf, heq, hqf⟩
    simp only [senderQueue] at heq ⊢
    refine ⟨by rw [heq], ?_⟩
    rw [alGet_alSet_same]
    simp only [Option.getD_some]
    rw [heq]
    exact hqf
  · intro hnone
    have h := waitLoop_none msg.trace_id arrivals timeout 0
      (senderQueue (((bus.subscribe msg.sender).publish msg).1) msg.sender)
      hq0 (fun d hd => by simpa using hnone d hd)
    exact h.1

def c1Bus : MCPMessageBus :=
  { session_id := "s1",
    subscribers := [("CoordinatorAgent", []), ("RetrievalAgent", [])],
    message_history := [] }

def c1Req : MCPMessage :=
  wMsg "CoordinatorAgent" "RetrievalAgent" "T1" .RETRIEVAL_REQUEST

def c1Resp : MCPMessage :=
  wMsg "RetrievalAgent" "CoordinatorAgent" "T1" .RETRIEVAL_RESPONSE

def c1Arr : Nat → List MCPMessage := fun t => if t = 2 then [c1Resp] else []

/-- C1 witness: a response correlated with the request arrives at tick 2
(within the 30-unit ceiling) and is returned, leaving no matching
message behind in the sender's queue. -/
theorem send_and_wait_response_contract_witness :
    (c1Bus.send_and_wait_response c1Req c1Arr 30).1 = some c1Resp ∧
    hasMatch "T1"
      (senderQueue (c1Bus.send_and_wait_response c1Req c1Arr 30).2
        "CoordinatorAgent") = false := by
  have h := send_and_wait_response_contract c1Bus c1Req c1Arr 30
    (by decide) (by decide)
  exact h.1 2 c1Resp (by decide) rfl rfl
    (fun j hj => by simp [c1Arr, hasMatch, hj])

/-- C5: `publish` appends the message to history exactly once, returns
`true` iff the receiver has a subscribed queue (then also enqueueing the
message there), and on a missing receiver queue returns `false` leaving
the queues untouched while the message is still recorded in history. -/
theorem publish_contract (bus : MCPMessageBus) (m : MCPMessage) :
    (bus.publish m).1.message_history = bus.message_history ++ [m] ∧
    ((bus.publish m).2 = true ↔ (alGet bus.subscribers m.receiver).isSome = true) ∧
    (∀ q, alGet bus.subscribers m.receiver = some q →
       alGet (bus.publish m).1.subscribers m.receiver = some (q ++ [m])) ∧
    (alGet bus.subscribers m.receiver = none →
       (bus.publish m).2 = false ∧ (bus.publish m).1.subscribers = bus.subscribers) := by
  unfold MCPMessageBus.publish
  cases h : alGet bus.subscribers m.receiver with
  | some q => simp [h, alGet_alSet_same]
  | none => simp [h]

def c5Bus : MCPMessageBus := MCPMessageBus.mkNew "s5"

def c5Msg : MCPMessage := wMsg "CoordinatorAgent" "NobodyAgent" "T5" .ERROR

/-- C5 witness: publishing to a receiver with no subscribed queue
returns `false`, leaves the queues unchanged, and still records the
message in history. -/
theorem publish_contract_witness :
    (c5Bus.publish c5Msg).1.message_history = c5Bus.message_history ++ [c5Msg] ∧
    (c5Bus.publish c5Msg).2 = false ∧
    (c5Bus.publish c5Msg).1.subscribers = c5Bus.subscribers := by
  have h := publish_contract c5Bus c5Msg
  exact ⟨h.1, (h.2.2.2 rfl).1, (h.2.2.2 rfl).2⟩

def c6A : MCPMessage :=
  wMsg "RetrievalAgent" "CoordinatorAgent" "ta" .RETRIEVAL_RESPONSE

def c6B : MCPMessage :=
  wMsg "RetrievalAgent" "CoordinatorAgent" "tb" .RETRIEVAL_RESPONSE

def c6Match : MCPMessage :=
  wMsg "RetrievalAgent" "CoordinatorAgent" "T6" .RETRIEVAL_RESPONSE

def c6Bus : MCPMessageBus :=
  { session_id := "s6",
    subscribers := [("CoordinatorAgent", [c6A, c6Match, c6B]), ("RetrievalAgent", [])],
    message_history := [] }

def c6Req : MCPMessage :=
  wMsg "CoordinatorAgent" "RetrievalAgent" "T6" .RETRIEVAL_REQUEST

/-- C6 counterexample: with the sender's queue holding a mismatching
message, then the matching response, then another mismatching message,
the wait loop returns the match but leaves the queue rotated to
`[tb, ta]` — not the original-order remainder `[ta, tb]` the claim's
frame condition (other contents unchanged apart from the removal of the
match) predicts. -/
theorem c6_putback_counterexample :
    (c6Bus.send_and_wait_response c6Req (fun _ => []) 30).1 = some c6Match ∧
    (senderQueue (c6Bus.send_and_wait_response c6Req (fun _ => []) 30).2
        "CoordinatorAgent").map MCPMessage.trace_id = ["tb", "ta"] ∧
    ¬ (senderQueue (c6Bus.send_and_wait_response c6Req (fun _ => []) 30).2
        "CoordinatorAgent" = [c6A, c6B]) := by
  refine ⟨rfl, rfl, ?_⟩
  intro h
  have h2 := congrArg (List.map MCPMessage.trace_id) h
  revert h2
  decide

/-- C6 amended: every mismatching message popped during the wait is put
back at the tail of the queue rather than discarded, and the put-back
messages keep their original relative order among themselves; the final
queue is the not-yet-popped remainder followed by the put-back
mismatches — a rotation of, and hence a permutation of, the original
queue minus the matched response. -/
theorem send_and_wait_putback (bus : MCPMessageBus) (msg r : MCPMessage)
    (q1 q2 : List MCPMessage) (timeout : Nat)
    (hrs : msg.receiver ≠ msg.sender)
    (ht : 0 < timeout)
    (hq : senderQueue bus msg.sender = q1 ++ r :: q2)
    (h1 : hasMatch msg.trace_id q1 = false)
    (hr : r.trace_id = msg.trace_id) :
    (bus.send_and_wait_response msg (fun _ => []) timeout).1 = some r ∧
    senderQueue (bus.send_and_wait_response msg (fun _ => []) timeout).2
      msg.sender = q2 ++ q1 ∧
    (q2 ++ q1).Perm (q1 ++ q2) := by
  obtain ⟨f, rfl⟩ : ∃ f, timeout = f + 1 := ⟨timeout - 1, by omega⟩
  have hq0 : senderQueue (((bus.subscribe msg.sender).publish msg).1) msg.sender
      = q1 ++ r :: q2 := by
    rw [senderQueue_after_send bus msg hrs]
    exact hq
  have hloop : waitLoop msg.trace_id (fun _ => []) 0 (f + 1) (q1 ++ r :: q2)
      = (some r, q2 ++ q1) := by
    simp only [waitLoop, List.append_nil]
    rw [scanQueue_split msg.trace_id q2 r hr q1 [] h1]
    simp
  rw [send_and_wait_response_eq]
  simp only [senderQueue] at hq0 ⊢
  refine ⟨by rw [hq0, hloop], ?_, List.perm_append_comm⟩
  rw [alGet_alSet_same]
  simp only [Option.getD_some]
  rw [hq0, hloop]

/-- C6 amended-claim witness: the concrete counterexample queue, viewed
through the amended statement. -/
theorem send_and_wait_putback_witness :
    (c6Bus.send_and_wait_response c6Req (fun _ => []) 30).1 = some c6Match ∧
    senderQueue (c6Bus.send_and_wait_response c6Req (fun _ => []) 30).2
      "CoordinatorAgent" = [c6B] ++ [c6A] ∧
    ([c6B] ++ [c6A]).Perm ([c6A] ++ [c6B]) := by
  exact send_and_wait_putback c6Bus c6Req c6Match [c6A] [c6B] 30
    (by decide) (by omega) rfl (by decide) rfl

/-- C4: publishing a message on session S1's bus leaves session S2's
registry entry — its bus, and with it every queue and the history —
unchanged, and the registry hands each session a bus carrying its own
session id. -/
theorem session_isolation (reg : BusRegistry) (s1 s2 : String) (m : MCPMessage)
    (hne : s1 ≠ s2) :
    alGet (publishInSession reg s1 m) s2 = alGet reg s2 ∧
    (wfRegistry reg → (get_message_bus reg s1).1.session_id = s1 ∧
       (get_message_bus reg s2).1.session_id = s2) := by
  constructor
  · unfold publishInSession get_message_bus
    cases h : alGet reg s1 with
    | some b =>
        simp only [h]
        exact alGet_alSet_ne _ _ _ _ hne
    | none =>
        simp only [h]
        rw [alGet_alSet_ne _ _ _ _ hne, alGet_append_ne _ _ _ _ hne]
  · intro hwf
    constructor
    · unfold get_message_bus
      cases h : alGet reg s1 with
      | some b => simpa using hwf (s1, b) (alGet_mem _ _ _ h)
      | none => simp [MCPMessageBus.mkNew]
    · unfold get_message_bus
      cases h : alGet reg s2 with
      | some b => simpa using hwf (s2, b) (alGet_mem _ _ _ h)
      | none => simp [MCPMessageBus.mkNew]

def c4Msg : MCPMessage :=
  wMsg "CoordinatorAgent" "RetrievalAgent" "T4" .RETRIEVAL_REQUEST

/-- C4 witness: publishing into freshly created session "A" leaves
session "B" absent and untouched, and each session's bus carries its own
id. -/
theorem session_isolation_witness :
    alGet (publishInSession [] "A" c4Msg) "B" = alGet ([] : BusRegistry) "B" ∧
    (get_message_bus ([] : BusRegistry) "A").1.session_id = "A" ∧
    (get_message_bus ([] : BusRegistry) "B").1.session_id = "B" := by
  have hwf : wfRegistry [] := fun p hp => absurd hp (List.not_mem_nil p)
  have h := session_isolation [] "A" "B" c4Msg (by decide)
  exact ⟨h.1, (h.2 hwf).1, (h.2 hwf).2⟩

/-! ## Stage services (`src/mcp/mcp_agents.py`)

Each `process_*` method wraps one external capability (a langgraph agent
graph) in a `try`/`except` envelope.  The capability — input-object
construction plus `invoke`/`ainvoke` plus result post-processing — is a
parameter of type `… → Except String …`; `Except.error e` models any
exception raised inside the `try` block, with `e` standing for `str(e)`.
-/

/-- `MCPIngestionAgent.process_ingestion_request`.  The external
capability receives the request payload and yields the embedder result
dict together with `len(embedder_state.documents)` (`0` when the
attribute is absent). -/
def process_ingestion_request
    (invoke : PyDict → Except String (PyDict × Nat))
    (message : MCPMessage) : MCPMessage :=
  match invoke message.payload with
  | .ok res =>
      { sender := "IngestionAgent", receiver := message.sender,
        type := .INGESTION_RESPONSE, trace_id := message.trace_id,
        timestamp := 0,
        payload :=
          [("success", (alGet res.1 "success").getD (.vbool false)),
           ("message", (alGet res.1 "message").getD (.vstr "")),
           ("vector_db_ready", .vbool true),
           ("vector_db_path",
             (alGet message.payload "vector_db_path").getD
               (.vstr "DATA/vector_db")),
           ("documents_processed", .vint res.2)],
        metadata := [] }
  | .error e =>
      { sender := "IngestionAgent", receiver := message.sender,
        type := .ERROR, trace_id := message.trace_id, timestamp := 0,
        payload := [("error", .vstr e), ("trace", .vstr e)],
        metadata := [] }

/-- `MCPRetrievalAgent.process_retrieval_request`.  The external
capability yields the serialized retrieved documents. -/
def process_retrieval_request
    (ainvoke : PyDict → Except String (List PyValue))
    (message : MCPMessage) : MCPMessage :=
  match ainvoke message.payload with
  | .ok docs =>
      { sender := "RetrievalAgent", receiver := message.sender,
        type := .RETRIEVAL_RESPONSE, trace_id := message.trace_id,
        timestamp := 0,
        payload :=
          [("retrieved_docs", .vlist docs),
           ("query", (alGet message.payload "query").getD .vnone),
           ("num_docs", .vint docs.length)],
        metadata := [] }
  | .error e =>
      { sender := "RetrievalAgent", receiver := message.sender,
        type := .ERROR, trace_id := message.trace_id, timestamp := 0,
        payload := [("error", .vstr e)],
        metadata := [] }

/-- `MCPLLMResponseAgent.process_llm_request`.  The external capability
(document deserialization plus the LLM graph) yields the result dict. -/
def process_llm_request
    (invoke : PyDict → Except String PyDict)
    (message : MCPMessage) : MCPMessage :=
  match invoke message.payload with
  | .ok res =>
      { sender := "LLMResponseAgent", receiver := message.sender,
        type := .LLM_RESPONSE, trace_id := message.trace_id, timestamp := 0,
        payload :=
          [("answer", (alGet res "answer").getD (.vstr "")),
           ("source_context", (alGet res "source_context").getD (.vstr "")),
           ("query", (alGet message.payload "query").getD .vnone)],
        metadata := [] }
  | .error e =>
      { sender := "LLMResponseAgent", receiver := message.sender,
        type := .ERROR, trace_id := message.trace_id, timestamp := 0,
        payload := [("error", .vstr e)],
        metadata := [] }

/-- `MCPGeneralAgent.process_general_query`.  The external capability
yields the answer text; the source's
`getattr(MCPMessageType, "GENERAL_QUERY_RESPONSE", …)` resolves to the
existing `GENERAL_QUERY_RESPONSE` member. -/
def process_general_query
    (ainvoke : PyDict → Except String String)
    (message : MCPMessage) : MCPMessage :=
  match ainvoke message.payload with
  | .ok answer =>
      { sender := "GeneralAgent", receiver := message.sender,
        type := .GENERAL_QUERY_RESPONSE, trace_id := message.trace_id,
        timestamp := 0,
        payload :=
          [("answer", .vstr answer),
           ("query", (alGet message.payload "query").getD .vnone)],
        metadata := [] }
  | .error e =>
      { sender := "GeneralAgent", receiver := message.sender,
        type := .ERROR, trace_id := message.trace_id, timestamp := 0,
        payload := [("error", .vstr e)],
        metadata := [] }

/-- C2: every stage handler is a total function of the capability
outcome (no exception escapes): on a capability failure it returns an
`ERROR` message whose payload carries the error description; on success
it returns the paired response kind for the service's request kind; and
in every returned response the receiver is the request's sender, the
trace id is copied verbatim, and the sender equals the request's
receiver whenever the request was addressed to that service. -/
theorem handle_contract
    (invI : PyDict → Except String (PyDict × Nat))
    (invR : PyDict → Except String (List PyValue))
    (invL : PyDict → Except String PyDict)
    (invG : PyDict → Except String String)
    (msg : MCPMessage) :
    ((process_ingestion_request invI msg).receiver = msg.sender ∧
     (process_ingestion_request invI msg).trace_id = msg.trace_id ∧
     (msg.receiver = "IngestionAgent" →
       (process_ingestion_request invI msg).sender = msg.receiver) ∧
     (∀ e, invI msg.payload = .error e →
       (process_ingestion_request invI msg).type = .ERROR ∧
       alGet (process_ingestion_request invI msg).payload "error"
         = some (.vstr e)) ∧
     (∀ r, invI msg.payload = .ok r →
       (process_ingestion_request invI msg).type = .INGESTION_RESPONSE)) ∧
    ((process_retrieval_request invR msg).receiver = msg.sender ∧
     (process_retrieval_request invR msg).trace_id = msg.trace_id ∧
     (msg.receiver = "RetrievalAgent" →
       (process_retrieval_request invR msg).sender = msg.receiver) ∧
     (∀ e, invR msg.payload = .error e →
       (process_retrieval_request invR msg).type = .ERROR ∧
       alGet (process_retrieval_request invR msg).payload "error"
         = some (.vstr e)) ∧
     (∀ r, invR msg.payload = .ok r →
       (process_retrieval_request invR msg).type = .RETRIEVAL_RESPONSE)) ∧
    ((process_llm_request invL msg).receiver = msg.sender ∧
     (process_llm_request invL msg).trace_id = msg.trace_id ∧
     (msg.receiver = "LLMResponseAgent" →
       (process_llm_request invL msg).sender = msg.receiver) ∧
     (∀ e, invL msg.payload = .error e →
       (process_llm_request invL msg).type = .ERROR ∧
       alGet (process_llm_request invL msg).payload "error"
         = some (.vstr e)) ∧
     (∀ r, invL msg.payload = .ok r →
       (process_llm_request invL msg).type = .LLM_RESPONSE)) ∧
    ((process_general_query invG msg).receiver = msg.sender ∧
     (process_general_query invG msg).trace_id = msg.trace_id ∧
     (msg.receiver = "GeneralAgent" →
       (process_general_query invG msg).sender = msg.receiver) ∧
     (∀ e, invG msg.payload = .error e →
       (process_general_query invG msg).type = .ERROR ∧
       alGet (process_general_query invG msg).payload "error"
         = some (.vstr e)) ∧
     (∀ r, invG msg.payload = .ok r →
       (process_general_query invG msg).type = .GENERAL_QUERY_RESPONSE)) := by
  refine ⟨?_, ?_, ?_, ?_⟩
  · unfold process_ingestion_request
    cases h : invI msg.payload with
    | ok r =>
        simp only [h, alGet]
        simp
        exact fun hrecv => hrecv.symm
    | error e =>
        simp only [h, alGet]
        simp
        exact fun hrecv => hrecv.symm
  · unfold process_retrieval_request
    cases h : invR msg.payload with
    | ok r =>
        simp only [h, alGet]
        simp
        exact fun hrecv => hrecv.symm
    | error e =>
        simp only [h, alGet]
        simp
        exact fun hrecv => hrecv.symm
  · unfold process_llm_request
    cases h : invL msg.payload with
    | ok r =>
        simp only [h, alGet]
        simp
        exact fun hrecv => hrecv.symm
    | error e =>
        simp only [h, alGet]
        simp
        exact fun hrecv => hrecv.symm
  · unfold process_general_query
    cases h : invG msg.payload with
    | ok r =>
        simp only [h, alGet]
        simp
        exact fun hrecv => hrecv.symm
    | error e =>
        simp only [h, alGet]
        simp
        exact fun hrecv => hrecv.symm

def c2Req : MCPMessage :=
  wMsg "CoordinatorAgent" "IngestionAgent" "T2" .INGESTION_REQUEST

def c2FailInvoke : PyDict → Except String (PyDict × Nat) :=
  fun _ => .error "boom"

def c2OkInvoke : PyDict → Except String String :=
  fun _ => .ok "Paris"

def c2GReq : MCPMessage :=
  wMsg "CoordinatorAgent" "GeneralAgent" "T2g" .GENERAL_QUERY_REQUEST

/-- C2 witness: a failing ingestion capability yields an `ERROR`
response with the description in the payload and the envelope fields
swapped/copied; a succeeding general capability yields the paired
response kind. -/
theorem handle_contract_witness :
    ((process_ingestion_request c2FailInvoke c2Req).type = .ERROR ∧
     alGet (process_ingestion_request c2FailInvoke c2Req).payload "error"
       = some (.vstr "boom")) ∧
    (process_ingestion_request c2FailInvoke c2Req).receiver = "CoordinatorAgent" ∧
    (process_ingestion_request c2FailInvoke c2Req).trace_id = "T2" ∧
    (process_ingestion_request c2FailInvoke c2Req).sender = "IngestionAgent" ∧
    (process_general_query c2OkInvoke c2GReq).type = .GENERAL_QUERY_RESPONSE := by
  have h := handle_contract c2FailInvoke (fun _ => .ok []) (fun _ => .ok [])
    c2OkInvoke c2Req
  have hg := handle_contract c2FailInvoke (fun _ => .ok []) (fun _ => .ok [])
    c2OkInvoke c2GReq
  exact ⟨h.1.2.2.2.1 "boom" rfl, h.1.1, h.1.2.1, h.1.2.2.1 rfl,
    (hg.2.2.2).2.2.2.2 "Paris" rfl⟩

/-! ## Listener loops (`MCPCoordinator.start_agent_listeners`) -/

/-- One listener loop, run over a finite prefix of the messages popped
from the service's inbound queue; returns the responses it publishes.
`process` may fail (`Except.error` models an exception raised while
handling), in which case the error is logged and the loop continues.
The source loop additionally skips (drops without handling) any message
popped by the IngestionAgent's listener whose type is not
`INGESTION_REQUEST`. -/
def agent_listener_run (agent_name : String)
    (process : MCPMessage → Except String MCPMessage) :
    List MCPMessage → List MCPMessage
  | [] => []
  | m :: rest =>
      if agent_name == "IngestionAgent" && !(m.type == .INGESTION_REQUEST) then
        agent_listener_run agent_name process rest
      else
        match process m with
        | .ok r => r :: agent_listener_run agent_name process rest
        | .error _ => agent_listener_run agent_name process rest

def c9Msg : MCPMessage :=
  wMsg "CoordinatorAgent" "IngestionAgent" "T9" .RETRIEVAL_REQUEST

/-- C9 counterexample: the IngestionAgent listener pops a message whose
type is not `INGESTION_REQUEST` and drops it without invoking `handle`
or publishing anything, although `handle` would have produced a
response. -/
theorem c9_listener_counterexample :
    agent_listener_run "IngestionAgent" (fun m => .ok m) [c9Msg] = [] ∧
    (fun (m : MCPMessage) => (Except.ok m : Except String MCPMessage)) c9Msg
      = .ok c9Msg := by
  exact ⟨rfl, rfl⟩

/-- C9 amended: every listener, for every message it pops, invokes the
service's handler and publishes the resulting response, continuing past
handler failures so that no single message terminates the loop — except
that the IngestionAgent's listener silently drops any popped message
whose type is not `INGESTION_REQUEST`. -/
theorem agent_listener_spec (agent_name : String)
    (process : MCPMessage → Except String MCPMessage)
    (msgs : List MCPMessage) :
    agent_listener_run agent_name process msgs =
      (msgs.filter (fun m =>
        !(agent_name == "IngestionAgent") || (m.type == .INGESTION_REQUEST))).filterMap
        (fun m => (process m).toOption) := by
  induction msgs with
  | nil => rfl
  | cons m rest ih =>
      cases ha : (agent_name == "IngestionAgent") <;>
        cases hb : (m.type == MCPMessageType.INGESTION_REQUEST) <;>
          cases hp : process m <;>
            simp [agent_listener_run, ha, hb, hp, Except.toOption, ih]

def c9Ok : MCPMessage :=
  wMsg "CoordinatorAgent" "IngestionAgent" "T9b" .INGESTION_REQUEST

/-- C9 amended-claim witness: the ingestion listener, fed a skipped
message, a failing message and a handled message, publishes exactly the
handled one. -/
theorem agent_listener_spec_witness :
    agent_listener_run "IngestionAgent"
        (fun m => if m.trace_id == "T9b" then .ok m else .error "boom")
        [c9Msg, c9Ok] = [c9Ok] ∧
    ([c9Msg, c9Ok].filter (fun m =>
        !("IngestionAgent" == "IngestionAgent")
          || (m.type == MCPMessageType.INGESTION_REQUEST))).filterMap
      (fun m => ((if m.trace_id == "T9b" then .ok m
        else .error "boom" : Except String MCPMessage)).toOption) = [c9Ok] := by
  constructor
  · rw [agent_listener_spec "IngestionAgent"
      (fun m => if m.trace_id == "T9b" then .ok m else .error "boom")
      [c9Msg, c9Ok]]
    rfl
  · rfl

/-! ## Coordinator (`src/mcp/coordinator.py`)

`process_user_query` interacts with the bus only through
`send_and_wait_response`; the combined effect of one such call together
with the listener that serves it is modelled by a response oracle
`respond : MCPMessage → Option MCPMessage` (`none` models a timeout).
Alongside the result dict, the embedding returns the list of messages
recorded in the bus history for the turn: each request sent, followed by
the response published by its listener when one arrived. -/

/-- Python truthiness of the optional `file_path` argument
(`None` and `""` are falsy). -/
def pyTruthy : Option String → Bool
  | none => false
  | some s => !(s == "")

/-- Python truthiness of the `query` string. -/
def pyTruthyStr (s : String) : Bool := !(s == "")

/-- `self.vector_db_path` set in `MCPCoordinator.__init__`. -/
def vector_db_path (session_id : String) : String :=
  "DATA/vector_db_" ++ session_id

/-- `self.retriever_path` set in `MCPCoordinator.__init__`. -/
def retriever_path (session_id : String) : String :=
  "DATA/retriever_cache_" ++ session_id

/-- A Python optional string as a payload value. -/
def pyOfOptStr : Option String → PyValue
  | none => .vnone
  | some s => .vstr s

/-- The ingestion request built in the embed-only branch. -/
def ingestion_message (session_id trace_id : String)
    (file_path : Option String) : MCPMessage :=
  { sender := "CoordinatorAgent", receiver := "IngestionAgent",
    type := .INGESTION_REQUEST, trace_id := trace_id, timestamp := 0,
    payload := [("file_path", pyOfOptStr file_path),
                ("vector_db_path", .vstr (vector_db_path session_id))],
    metadata := [] }

/-- The retrieval request built in the document-QA branch. -/
def retrieval_message (session_id trace_id query : String) : MCPMessage :=
  { sender := "CoordinatorAgent", receiver := "RetrievalAgent",
    type := .RETRIEVAL_REQUEST, trace_id := trace_id, timestamp := 0,
    payload := [("query", .vstr query),
                ("vector_db_path", .vstr (vector_db_path session_id)),
                ("retriever_path", .vstr (retriever_path session_id))],
    metadata := [] }

/-- The LLM request built in the document-QA branch from the retrieval
response's `retrieved_docs` payload entry. -/
def llm_message (trace_id query : String) (retrieved_docs : PyValue) :
    MCPMessage :=
  { sender := "CoordinatorAgent", receiver := "LLMResponseAgent",
    type := .LLM_REQUEST, trace_id := trace_id, timestamp := 0,
    payload := [("query", .vstr query), ("retrieved_docs", retrieved_docs)],
    metadata := [] }

/-- The general request built in the general-QA branch. -/
def general_message (trace_id query : String) : MCPMessage :=
  { sender := "CoordinatorAgent", receiver := "GeneralAgent",
    type := .GENERAL_QUERY_REQUEST, trace_id := trace_id, timestamp := 0,
    payload := [("query", .vstr query)],
    metadata := [] }

/-- `MCPMessage.to_dict`. -/
def MCPMessage.to_dict (m : MCPMessage) : PyValue :=
  .vdict [("sender", .vstr m.sender), ("receiver", .vstr m.receiver),
          ("type", .vstr m.type.value), ("trace_id", .vstr m.trace_id),
          ("timestamp", .vint m.timestamp), ("payload", .vdict m.payload),
          ("metadata", .vdict m.metadata)]

/-- The `message_history` result entry:
`[msg.to_dict() for msg in self.message_bus.get_message_history(trace_id)]`. -/
def history_field (hist : List MCPMessage) (trace_id : String) : PyValue :=
  .vlist ((get_message_history hist trace_id).map MCPMessage.to_dict)

/-- Stand-in for the Python `repr` of a payload dict interpolated into
the coordinator's exception f-strings; only the presence of an error
string matters to the claims, not its exact text. -/
def pyReprD (d : PyDict) : String :=
  String.intercalate ", " (d.map Prod.fst)

/-- The dict returned by the coordinator's `except` branch:
`{"error": str(e), "trace_id": …, "message_history": …}`. -/
def pipeline_error_result (e trace_id : String) (hist : List MCPMessage) :
    PyDict :=
  [("error", .vstr e), ("trace_id", .vstr trace_id),
   ("message_history", history_field hist trace_id)]

/-- The embed-only branch (`file_path and query == "__EMBED_ONLY__"`).
A `none` or `ERROR`-typed ingestion response raises, landing in the
`except` branch. -/
def embed_only_turn (session_id : String)
    (respond : MCPMessage → Option MCPMessage) (trace_id : String)
    (file_path : Option String) : PyDict × List MCPMessage :=
  let msg := ingestion_message session_id trace_id file_path
  match respond msg with
  | none =>
      (pipeline_error_result "Ingestion failed: No response" trace_id [msg],
       [msg])
  | some resp =>
      if resp.type == .ERROR then
        (pipeline_error_result ("Ingestion failed: " ++ pyReprD resp.payload)
          trace_id [msg, resp], [msg, resp])
      else
        ([("vector_db_ready",
            (alGet resp.payload "vector_db_ready").getD (.vbool false)),
          ("message", (alGet resp.payload "message").getD (.vstr "VectorDB ready")),
          ("vector_db_path",
            (alGet resp.payload "vector_db_path").getD
              (.vstr (vector_db_path session_id))),
          ("trace_id", .vstr trace_id),
          ("message_history", history_field [msg, resp] trace_id)],
         [msg, resp])

/-- The document-QA branch (`file_path and query != "__EMBED_ONLY__"`).
A failed retrieval raises before any LLM request is built; the source
also subscripts `payload['num_docs']` (in a logging f-string),
`payload['retrieved_docs']` and `payload['answer']`, each of which
raises `KeyError` into the `except` branch when absent. -/
def document_qa_turn (session_id : String)
    (respond : MCPMessage → Option MCPMessage) (trace_id query : String) :
    PyDict × List MCPMessage :=
  let rmsg := retrieval_message session_id trace_id query
  match respond rmsg with
  | none =>
      (pipeline_error_result "Retrieval failed: No response" trace_id [rmsg],
       [rmsg])
  | some rresp =>
      if rresp.type == .ERROR then
        (pipeline_error_result ("Retrieval failed: " ++ pyReprD rresp.payload)
          trace_id [rmsg, rresp], [rmsg, rresp])
      else
        match alGet rresp.payload "num_docs" with
        | none =>
            (pipeline_error_result "KeyError: num_docs" trace_id [rmsg, rresp],
             [rmsg, rresp])
        | some _ =>
            match alGet rresp.payload "retrieved_docs" with
            | none =>
                (pipeline_error_result "KeyError: retrieved_docs" trace_id
                  [rmsg, rresp], [rmsg, rresp])
            | some docs =>
                let lmsg := llm_message trace_id query docs
                match respond lmsg with
                | none =>
                    (pipeline_error_result "LLM processing failed: No response"
                      trace_id [rmsg, rresp, lmsg], [rmsg, rresp, lmsg])
                | some lresp =>
                    if lresp.type == .ERROR then
                      (pipeline_error_result
                        ("LLM processing failed: " ++ pyReprD lresp.payload)
                        trace_id [rmsg, rresp, lmsg, lresp],
                       [rmsg, rresp, lmsg, lresp])
                    else
                      match alGet lresp.payload "answer" with
                      | none =>
                          (pipeline_error_result "KeyError: answer" trace_id
                            [rmsg, rresp, lmsg, lresp],
                           [rmsg, rresp, lmsg, lresp])
                      | some ans =>
                          ([("answer", ans),
                            ("source_context",
                              (alGet lresp.payload "source_context").getD
                                (.vstr "")),
                            ("trace_id", .vstr trace_id),
                            ("message_history",
                              history_field [rmsg, rresp, lmsg, lresp] trace_id)],
                           [rmsg, rresp, lmsg, lresp])

/-- The general-QA branch (`not file_path and query`).  The source
checks neither for a `none` response (attribute access on `None` raises)
nor for an `ERROR` type (`payload["answer"]` raises `KeyError` when the
key is absent); both exceptions land in the `except` branch. -/
def general_qa_turn (respond : MCPMessage → Option MCPMessage)
    (trace_id query : String) : PyDict × List MCPMessage :=
  let gmsg := general_message trace_id query
  match respond gmsg with
  | none =>
      (pipeline_error_result
        "AttributeError: NoneType object has no attribute payload" trace_id
        [gmsg], [gmsg])
  | some gresp =>
      match alGet gresp.payload "answer" with
      | none =>
          (pipeline_error_result "KeyError: answer" trace_id [gmsg, gresp],
           [gmsg, gresp])
      | some ans =>
          ([("answer", ans), ("trace_id", .vstr trace_id),
            ("message_history", history_field [gmsg, gresp] trace_id)],
           [gmsg, gresp])

/-- `MCPCoordinator.process_user_query`: branch selection exactly as the
source's sequence of `if` statements. -/
def process_user_query (session_id : String)
    (respond : MCPMessage → Option MCPMessage) (trace_id : String)
    (file_path : Option String) (query : String) : PyDict × List MCPMessage :=
  if pyTruthy file_path && (query == "__EMBED_ONLY__") then
    embed_only_turn session_id respond trace_id file_path
  else if pyTruthy file_path && !(query == "__EMBED_ONLY__") then
    document_qa_turn session_id respond trace_id query
  else if !(pyTruthy file_path) && pyTruthyStr query then
    general_qa_turn respond trace_id query
  else
    ([("error", .vstr "Invalid input to MCP pipeline."),
      ("trace_id", .vstr trace_id)], [])

/-- A response transition failed: timeout (`none`) or `ERROR` kind. -/
def failedResponse (o : Option MCPMessage) : Prop :=
  o = none ∨ ∃ r, o = some r ∧ r.type = MCPMessageType.ERROR

/-- The result dict exposes the turn's filtered message history. -/
def carriesTrace (run : PyDict × List MCPMessage) (tid : String) : Prop :=
  alGet run.1 "message_history" = some (history_field run.2 tid)

theorem pipeline_error_result_error (e tid : String) (hist : List MCPMessage) :
    (alGet (pipeline_error_result e tid hist) "error").isSome = true := rfl

theorem pipeline_error_result_history (e tid : String) (hist : List MCPMessage) :
    alGet (pipeline_error_result e tid hist) "message_history"
      = some (history_field hist tid) := rfl

theorem process_user_query_embed (session_id : String)
    (respond : MCPMessage → Option MCPMessage) (trace_id : String)
    (file_path : Option String) (query : String)
    (h1 : pyTruthy file_path = true) (h2 : (query == "__EMBED_ONLY__") = true) :
    process_user_query session_id respond trace_id file_path query
      = embed_only_turn session_id respond trace_id file_path := by
  simp [process_user_query, h1, h2]

theorem process_user_query_docqa (session_id : String)
    (respond : MCPMessage → Option MCPMessage) (trace_id : String)
    (file_path : Option String) (query : String)
    (h1 : pyTruthy file_path = true) (h2 : (query == "__EMBED_ONLY__") = false) :
    process_user_query session_id respond trace_id file_path query
      = document_qa_turn session_id respond trace_id query := by
  simp [process_user_query, h1, h2]

theorem process_user_query_general (session_id : String)
    (respond : MCPMessage → Option MCPMessage) (trace_id : String)
    (file_path : Option String) (query : String)
    (h1 : pyTruthy file_path = false) (h2 : pyTruthyStr query = true) :
    process_user_query session_id respond trace_id file_path query
      = general_qa_turn respond trace_id query := by
  simp [process_user_query, h1, h2]

theorem process_user_query_invalid (session_id : String)
    (respond : MCPMessage → Option MCPMessage) (trace_id : String)
    (file_path : Option String) (query : String)
    (h1 : pyTruthy file_path = false) (h2 : pyTruthyStr query = false) :
    process_user_query session_id respond trace_id file_path query
      = ([("error", .vstr "Invalid input to MCP pipeline."),
          ("trace_id", .vstr trace_id)], []) := by
  simp [process_user_query, h1, h2]

theorem document_qa_turn_fail (sid : String)
    (respond : MCPMessage → Option MCPMessage) (tid q : String)
    (h : failedResponse (respond (retrieval_message sid tid q))) :
    (alGet (document_qa_turn sid respond tid q).1 "error").isSome = true ∧
    carriesTrace (document_qa_turn sid respond tid q) tid ∧
    ∀ m ∈ (document_qa_turn sid respond tid q).2,
      m.type ≠ MCPMessageType.LLM_REQUEST := by
  rcases h with h | ⟨r, hr, herr⟩
  · have heq : document_qa_turn sid respond tid q
        = (pipeline_error_result "Retrieval failed: No response" tid
            [retrieval_message sid tid q], [retrieval_message sid tid q]) := by
      simp [document_qa_turn, h]
    refine ⟨?_, ?_, ?_⟩
    · rw [heq]
      exact pipeline_error_result_error _ _ _
    · unfold carriesTrace
      rw [heq]
      exact pipeline_error_result_history _ _ _
    · rw [heq]
      intro m hm
      simp only [List.mem_singleton] at hm
      subst hm
      exact fun hcon => MCPMessageType.noConfusion hcon
  · have hb : (r.type == MCPMessageType.ERROR) = true := by simp [herr]
    have heq : document_qa_turn sid respond tid q
        = (pipeline_error_result ("Retrieval failed: " ++ pyReprD r.payload) tid
            [retrieval_message sid tid q, r],
           [retrieval_message sid tid q, r]) := by
      simp [document_qa_turn, hr, hb]
    refine ⟨?_, ?_, ?_⟩
    · rw [heq]
      exact pipeline_error_result_error _ _ _
    · unfold carriesTrace
      rw [heq]
      exact pipeline_error_result_history _ _ _
    · rw [heq]
      intro m hm
      rcases List.mem_cons.mp hm with hm1 | hm2
      · subst hm1
        exact fun hcon => MCPMessageType.noConfusion hcon
      · rcases List.mem_cons.mp hm2 with hm1 | hm3
        · subst hm1
          rw [Ne, herr]
          decide
        · exact absurd hm3 (List.not_mem_nil m)

theorem embed_only_turn_fail (sid : String)
    (respond : MCPMessage → Option MCPMessage) (tid : String)
    (fp : Option String)
    (h : failedResponse (respond (ingestion_message sid tid fp))) :
    (alGet (embed_only_turn sid respond tid fp).1 "error").isSome = true ∧
    carriesTrace (embed_only_turn sid respond tid fp) tid ∧
    ∀ m ∈ (embed_only_turn sid respond tid fp).2,
      m.type ≠ MCPMessageType.RETRIEVAL_REQUEST ∧
      m.type ≠ MCPMessageType.LLM_REQUEST := by
  rcases h with h | ⟨r, hr, herr⟩
  · have heq : embed_only_turn sid respond tid fp
        = (pipeline_error_result "Ingestion failed: No response" tid
            [ingestion_message sid tid fp], [ingestion_message sid tid fp]) := by
      simp [embed_only_turn, h]
    refine ⟨?_, ?_, ?_⟩
    · rw [heq]
      exact pipeline_error_result_error _ _ _
    · unfold carriesTrace
      rw [heq]
      exact pipeline_error_result_history _ _ _
    · rw [heq]
      intro m hm
      simp only [List.mem_singleton] at hm
      subst hm
      exact ⟨fun hcon => MCPMessageType.noConfusion hcon,
        fun hcon => MCPMessageType.noConfusion hcon⟩
  · have hb : (r.type == MCPMessageType.ERROR) = true := by simp [herr]
    have heq : embed_only_turn sid respond tid fp
        = (pipeline_error_result ("Ingestion failed: " ++ pyReprD r.payload) tid
            [ingestion_message sid tid fp, r],
           [ingestion_message sid tid fp, r]) := by
      simp [embed_only_turn, hr, hb]
    refine ⟨?_, ?_, ?_⟩
    · rw [heq]
      exact pipeline_error_result_error _ _ _
    · unfold carriesTrace
      rw [heq]
      exact pipeline_error_result_history _ _ _
    · rw [heq]
      intro m hm
      rcases List.mem_cons.mp hm with hm1 | hm2
      · subst hm1
        exact ⟨fun hcon => MCPMessageType.noConfusion hcon,
          fun hcon => MCPMessageType.noConfusion hcon⟩
      · rcases List.mem_cons.mp hm2 with hm1 | hm3
        · subst hm1
          constructor
          · rw [Ne, herr]
            decide
          · rw [Ne, herr]
            decide
        · exact absurd hm3 (List.not_mem_nil m)

theorem general_qa_turn_fail
    (respond : MCPMessage → Option MCPMessage) (tid q : String)
    (h : failedResponse (respond (general_message tid q)))
    (hnoans : ∀ r, respond (general_message tid q) = some r →
       alGet r.payload "answer" = none) :
    (alGet (general_qa_turn respond tid q).1 "error").isSome = true ∧
    carriesTrace (general_qa_turn respond tid q) tid := by
  rcases h with h | ⟨r, hr, _⟩
  · have heq : general_qa_turn respond tid q
        = (pipeline_error_result
            "AttributeError: NoneType object has no attribute payload" tid
            [general_message tid q], [general_message tid q]) := by
      simp [general_qa_turn, h]
    refine ⟨?_, ?_⟩
    · rw [heq]
      exact pipeline_error_result_error _ _ _
    · unfold carriesTrace
      rw [heq]
      exact pipeline_error_result_history _ _ _
  · have heq : general_qa_turn respond tid q
        = (pipeline_error_result "KeyError: answer" tid
            [general_message tid q, r], [general_message tid q, r]) := by
      simp [general_qa_turn, hr, hnoans r hr]
    refine ⟨?_, ?_⟩
    · rw [heq]
      exact pipeline_error_result_error _ _ _
    · unfold carriesTrace
      rw [heq]
      exact pipeline_error_result_history _ _ _

/-- In the system, `ERROR` responses produced by the general agent never
carry an `answer` payload entry, so the abort hypothesis of the
general-QA conjunct below is discharged by the agents themselves. -/
theorem general_error_payload_no_answer
    (ainvoke : PyDict → Except String String) (msg : MCPMessage) (e : String)
    (h : ainvoke msg.payload = .error e) :
    alGet (process_general_query ainvoke msg).payload "answer" = none := by
  unfold process_general_query
  rw [h]
  rfl

theorem document_qa_turn_success (sid : String)
    (respond : MCPMessage → Option MCPMessage) (tid q : String)
    (r : MCPMessage) (nd docs : PyValue)
    (hr : respond (retrieval_message sid tid q) = some r)
    (hne : (r.type == MCPMessageType.ERROR) = false)
    (hnd : alGet r.payload "num_docs" = some nd)
    (hdocs : alGet r.payload "retrieved_docs" = some docs) :
    ∃ rest, (document_qa_turn sid respond tid q).2
      = retrieval_message sid tid q :: r :: llm_message tid q docs :: rest := by
  cases hl : respond (llm_message tid q docs) with
  | none =>
      refine ⟨[], ?_⟩
      simp [document_qa_turn, hr, hne, hnd, hdocs, hl]
  | some lresp =>
      refine ⟨[lresp], ?_⟩
      by_cases hb : (lresp.type == MCPMessageType.ERROR) = true
      · simp [document_qa_turn, hr, hne, hnd, hdocs, hl, hb]
      · have hb' : (lresp.type == MCPMessageType.ERROR) = false := by
          simpa using hb
        cases hans : alGet lresp.payload "answer" with
        | none => simp [document_qa_turn, hr, hne, hnd, hdocs, hl, hb', hans]
        | some a => simp [document_qa_turn, hr, hne, hnd, hdocs, hl, hb', hans]

/-- C3: in every Coordinator turn a stage request is issued only after
the previous stage's response arrived — in a Document-QA turn the LLM
request appears in the trace directly after a successful retrieval
response — and every transition failure (`ERROR` response or `none`
timeout) aborts the turn with an error result carrying the message
history collected so far for the turn's trace id, never reaching a later
stage; likewise for the Embed-only and General-QA pipelines (the
general branch aborts through the exception raised when the failed
response carries no `answer` entry, which agent-produced failures never
do). -/
theorem coordinator_failure_aborts (sid : String)
    (respond : MCPMessage → Option MCPMessage) (tid : String)
    (fp : Option String) (q : String) :
    (pyTruthy fp = true → (q == "__EMBED_ONLY__") = false →
       failedResponse (respond (retrieval_message sid tid q)) →
       (alGet (process_user_query sid respond tid fp q).1 "error").isSome = true ∧
       carriesTrace (process_user_query sid respond tid fp q) tid ∧
       ∀ m ∈ (process_user_query sid respond tid fp q).2,
         m.type ≠ MCPMessageType.LLM_REQUEST) ∧
    (pyTruthy fp = true → (q == "__EMBED_ONLY__") = false →
       ∀ r, respond (retrieval_message sid tid q) = some r →
       r.type ≠ MCPMessageType.ERROR →
       ∀ nd docs, alGet r.payload "num_docs" = some nd →
       alGet r.payload "retrieved_docs" = some docs →
       ∃ rest, (process_user_query sid respond tid fp q).2
         = retrieval_message sid tid q :: r :: llm_message tid q docs :: rest) ∧
    (pyTruthy fp = true → (q == "__EMBED_ONLY__") = true →
       failedResponse (respond (ingestion_message sid tid fp)) →
       (alGet (process_user_query sid respond tid fp q).1 "error").isSome = true ∧
       carriesTrace (process_user_query sid respond tid fp q) tid ∧
       ∀ m ∈ (process_user_query sid respond tid fp q).2,
         m.type ≠ MCPMessageType.RETRIEVAL_REQUEST ∧
         m.type ≠ MCPMessageType.LLM_REQUEST) ∧
    (pyTruthy fp = false → pyTruthyStr q = true →
       failedResponse (respond (general_message tid q)) →
       (∀ r, respond (general_message tid q) = some r →
          alGet r.payload "answer" = none) →
       (alGet (process_user_query sid respond tid fp q).1 "error").isSome = true ∧
       carriesTrace (process_user_query sid respond tid fp q) tid) := by
  refine ⟨?_, ?_, ?_, ?_⟩
  · intro h1 h2 hfail
    rw [process_user_query_docqa sid respond tid fp q h1 h2]
    exact document_qa_turn_fail sid respond tid q hfail
  · intro h1 h2 r hr hne nd docs hnd hdocs
    rw [process_user_query_docqa sid respond tid fp q h1 h2]
    exact document_qa_turn_success sid respond tid q r nd docs hr
      (by simp [hne]) hnd hdocs
  · intro h1 h2 hfail
    rw [process_user_query_embed sid respond tid fp q h1 h2]
    exact embed_only_turn_fail sid respond tid fp hfail
  · intro h1 h2 hfail hnoans
    rw [process_user_query_general sid respond tid fp q h1 h2]
    exact general_qa_turn_fail respond tid q hfail hnoans

def c3Err : MCPMessage := wMsg "RetrievalAgent" "CoordinatorAgent" "T3" .ERROR

def c3Respond : MCPMessage → Option MCPMessage :=
  fun m => if m.type == MCPMessageType.RETRIEVAL_REQUEST then some c3Err
    else none

/-- C3 witness: a document-QA turn whose retrieval stage answers with an
`ERROR` message aborts with an error result carrying the trace, and no
LLM request is ever published. -/
theorem coordinator_failure_aborts_witness :
    (alGet (process_user_query "s" c3Respond "T3" (some "doc.pdf") "what").1
        "error").isSome = true ∧
    carriesTrace (process_user_query "s" c3Respond "T3" (some "doc.pdf") "what")
      "T3" ∧
    ∀ m ∈ (process_user_query "s" c3Respond "T3" (some "doc.pdf") "what").2,
      m.type ≠ MCPMessageType.LLM_REQUEST := by
  exact (coordinator_failure_aborts "s" c3Respond "T3" (some "doc.pdf") "what").1
    rfl rfl (Or.inr ⟨c3Err, rfl, rfl⟩)

theorem embed_only_turn_head (sid : String)
    (respond : MCPMessage → Option MCPMessage) (tid : String)
    (fp : Option String) :
    (embed_only_turn sid respond tid fp).2.head?
      = some (ingestion_message sid tid fp) := by
  simp only [embed_only_turn]
  repeat' split
  all_goals rfl

theorem document_qa_turn_head (sid : String)
    (respond : MCPMessage → Option MCPMessage) (tid q : String) :
    (document_qa_turn sid respond tid q).2.head?
      = some (retrieval_message sid tid q) := by
  simp only [document_qa_turn]
  repeat' split
  all_goals rfl

theorem general_qa_turn_head
    (respond : MCPMessage → Option MCPMessage) (tid q : String) :
    (general_qa_turn respond tid q).2.head?
      = some (general_message tid q) := by
  simp only [general_qa_turn]
  repeat' split
  all_goals rfl

/-- C10: whenever the document path is truthy, any query other than the
exact sentinel `"__EMBED_ONLY__"` — the empty string included — routes
to the Document-QA pipeline, whose first published message is the
retrieval request; and the input-validation branch, which publishes zero
messages, is reached exactly when both the document path and the query
are falsy. -/
theorem routing_contract (sid : String)
    (respond : MCPMessage → Option MCPMessage) (tid : String)
    (fp : Option String) (q : String) :
    (pyTruthy fp = true → (q == "__EMBED_ONLY__") = false →
       (process_user_query sid respond tid fp q).2.head?
         = some (retrieval_message sid tid q)) ∧
    ((process_user_query sid respond tid fp q).2 = []
       ↔ (pyTruthy fp = false ∧ pyTruthyStr q = false)) ∧
    (pyTruthy fp = false → pyTruthyStr q = false →
       process_user_query sid respond tid fp q
         = ([("error", .vstr "Invalid input to MCP pipeline."),
             ("trace_id", .vstr tid)], [])) := by
  refine ⟨?_, ⟨?_, ?_⟩, ?_⟩
  · intro h1 h2
    rw [process_user_query_docqa sid respond tid fp q h1 h2]
    exact document_qa_turn_head sid respond tid q
  · intro hemp
    by_cases h1 : pyTruthy fp = true
    · by_cases h2 : (q == "__EMBED_ONLY__") = true
      · rw [process_user_query_embed sid respond tid fp q h1 h2] at hemp
        have hh := embed_only_turn_head sid respond tid fp
        rw [hemp] at hh
        exact absurd hh (by simp)
      · have h2' : (q == "__EMBED_ONLY__") = false := by simpa using h2
        rw [process_user_query_docqa sid respond tid fp q h1 h2'] at hemp
        have hh := document_qa_turn_head sid respond tid q
        rw [hemp] at hh
        exact absurd hh (by simp)
    · have h1' : pyTruthy fp = false := by simpa using h1
      by_cases h2 : pyTruthyStr q = true
      · rw [process_user_query_general sid respond tid fp q h1' h2] at hemp
        have hh := general_qa_turn_head respond tid q
        rw [hemp] at hh
        exact absurd hh (by simp)
      · exact ⟨h1', by simpa using h2⟩
  · rintro ⟨h1, h2⟩
    rw [process_user_query_invalid sid respond tid fp q h1 h2]
  · intro h1 h2
    exact process_user_query_invalid sid respond tid fp q h1 h2

/-- C10 witness: with a document present and the empty-string query, the
Document-QA pipeline is entered (the retrieval request is the first
published message) and the turn publishes messages. -/
theorem routing_contract_witness :
    (process_user_query "s" (fun _ => none) "TX" (some "d.pdf") "").2.head?
      = some (retrieval_message "s" "TX" "") ∧
    ¬ ((process_user_query "s" (fun _ => none) "TX" (some "d.pdf") "").2 = []) := by
  have h := routing_contract "s" (fun _ => none) "TX" (some "d.pdf") ""
  refine ⟨h.1 rfl rfl, ?_⟩
  intro hemp
  have h2 := (h.2.1).mp hemp
  exact absurd h2.1 (by decide)

theorem embed_only_turn_fields (sid : String)
    (respond : MCPMessage → Option MCPMessage) (tid : String)
    (fp : Option String) :
    alGet (embed_only_turn sid respond tid fp).1 "trace_id"
      = some (.vstr tid) ∧
    (alGet (embed_only_turn sid respond tid fp).1 "message_history").isSome
      = true ∧
    ((alGet (embed_only_turn sid respond tid fp).1 "error").isSome = true ∨
     (alGet (embed_only_turn sid respond tid fp).1 "vector_db_ready").isSome
       = true) := by
  simp only [embed_only_turn]
  repeat' split
  all_goals first
    | exact ⟨rfl, rfl, Or.inl rfl⟩
    | exact ⟨rfl, rfl, Or.inr rfl⟩

theorem document_qa_turn_fields (sid : String)
    (respond : MCPMessage → Option MCPMessage) (tid q : String) :
    alGet (document_qa_turn sid respond tid q).1 "trace_id"
      = some (.vstr tid) ∧
    (alGet (document_qa_turn sid respond tid q).1 "message_history").isSome
      = true ∧
    ((alGet (document_qa_turn sid respond tid q).1 "error").isSome = true ∨
     (alGet (document_qa_turn sid respond tid q).1 "answer").isSome = true) := by
  simp only [document_qa_turn]
  repeat' split
  all_goals first
    | exact ⟨rfl, rfl, Or.inl rfl⟩
    | exact ⟨rfl, rfl, Or.inr rfl⟩

theorem general_qa_turn_fields
    (respond : MCPMessage → Option MCPMessage) (tid q : String) :
    alGet (general_qa_turn respond tid q).1 "trace_id" = some (.vstr tid) ∧
    (alGet (general_qa_turn respond tid q).1 "message_history").isSome = true ∧
    ((alGet (general_qa_turn respond tid q).1 "error").isSome = true ∨
     (alGet (general_qa_turn respond tid q).1 "answer").isSome = true) := by
  simp only [general_qa_turn]
  repeat' split
  all_goals first
    | exact ⟨rfl, rfl, Or.inl rfl⟩
    | exact ⟨rfl, rfl, Or.inr rfl⟩

/-- C8 counterexample: with no document and an empty query the source
returns `{"error": …, "trace_id": …}` with no `message_history` entry,
so the result of `process_user_query` does not always carry the ordered
trace of messages for the turn. -/
theorem c8_trace_counterexample :
    (process_user_query "s" (fun _ => none) "T8" none "").1
      = [("error", .vstr "Invalid input to MCP pipeline."),
         ("trace_id", .vstr "T8")] ∧
    alGet (process_user_query "s" (fun _ => none) "T8" none "").1
      "message_history" = none := by
  exact ⟨rfl, rfl⟩

/-- C8 amended: every result of `process_user_query` carries the turn's
trace id and is one of the documented shapes (an error result, a
store-ready result, or an answer result); every branch except the
invalid-input branch additionally carries the ordered message trace —
the invalid-input result omits `message_history`. -/
theorem turn_result_contract (sid : String)
    (respond : MCPMessage → Option MCPMessage) (tid : String)
    (fp : Option String) (q : String) :
    alGet (process_user_query sid respond tid fp q).1 "trace_id"
      = some (.vstr tid) ∧
    ((pyTruthy fp = true ∨ pyTruthyStr q = true) →
       (alGet (process_user_query sid respond tid fp q).1
         "message_history").isSome = true) ∧
    ((alGet (process_user_query sid respond tid fp q).1 "error").isSome = true ∨
     (alGet (process_user_query sid respond tid fp q).1
        "vector_db_ready").isSome = true ∨
     (alGet (process_user_query sid respond tid fp q).1 "answer").isSome
       = true) := by
  by_cases h1 : pyTruthy fp = true
  · by_cases h2 : (q == "__EMBED_ONLY__") = true
    · rw [process_user_query_embed sid respond tid fp q h1 h2]
      have h := embed_only_turn_fields sid respond tid fp
      exact ⟨h.1, fun _ => h.2.1,
        h.2.2.elim Or.inl (fun x => Or.inr (Or.inl x))⟩
    · have h2' : (q == "__EMBED_ONLY__") = false := by simpa using h2
      rw [process_user_query_docqa sid respond tid fp q h1 h2']
      have h := document_qa_turn_fields sid respond tid q
      exact ⟨h.1, fun _ => h.2.1,
        h.2.2.elim Or.inl (fun x => Or.inr (Or.inr x))⟩
  · have h1' : pyTruthy fp = false := by simpa using h1
    by_cases h2 : pyTruthyStr q = true
    · rw [process_user_query_general sid respond tid fp q h1' h2]
      have h := general_qa_turn_fields respond tid q
      exact ⟨h.1, fun _ => h.2.1,
        h.2.2.elim Or.inl (fun x => Or.inr (Or.inr x))⟩
    · have h2' : pyTruthyStr q = false := by simpa using h2
      rw [process_user_query_invalid sid respond tid fp q h1' h2']
      refine ⟨rfl, ?_, Or.inl rfl⟩
      intro hcase
      rcases hcase with hc | hc
      · exact absurd hc (by simp [h1'])
      · exact absurd hc (by simp [h2'])

/-- C8 amended-claim witness: a general-QA turn's result carries the
trace id, the message history and an error shape. -/
theorem turn_result_contract_witness :
    alGet (process_user_query "s" (fun _ => none) "T8b" none "hi").1 "trace_id"
      = some (.vstr "T8b") ∧
    (alGet (process_user_query "s" (fun _ => none) "T8b" none "hi").1
      "message_history").isSome = true := by
  have h := turn_result_contract "s" (fun _ => none) "T8b" none "hi"
  exact ⟨h.1, h.2.1 (Or.inr rfl)⟩

/-! ## Session wiring of the stage services (claim C7)

`src/mcp/mcp_agents.py` contradicts its own callers and its sibling
module: its import line requests `message_bus` from
`src/mcp/message_protocol.py`, whose module level defines only
`MCPMessageType`, `MCPMessage`, `MCPMessageBus`, the `message_buses`
registry dict and `get_message_bus` (an `ImportError` at load time);
and every agent constructor is `def __init__(self)` with no session
parameter, while `MCPCoordinator.__init__` calls each constructor with
one positional `session_id` argument (a `TypeError`).  The following
definitions embed those binding facts verbatim from the two files. -/

/-- Top-level names bound by `src/mcp/message_protocol.py`. -/
def messageProtocolTopLevelNames : List String :=
  ["MCPMessageType", "MCPMessage", "MCPMessageBus", "message_buses",
   "get_message_bus"]

/-- Names `src/mcp/mcp_agents.py` imports from
`src.mcp.message_protocol`. -/
def mcpAgentsMessageProtocolImports : List String :=
  ["MCPMessage", "MCPMessageType", "message_bus"]

/-- Positional parameters (besides `self`) of
`MCPIngestionAgent.__init__` in `src/mcp/mcp_agents.py`. -/
def ingestionAgentCtorParamCount : Nat := 0

/-- Positional arguments `MCPCoordinator.__init__` passes to
`MCPIngestionAgent(...)` in `src/mcp/coordinator.py`. -/
def coordinatorIngestionAgentArgCount : Nat := 1

/-- C7 (code-bug evidence): the agents module imports a name its sibling
module never defines, and the coordinator constructs each stage service
with a session argument its constructor does not accept — so the stage
services, as written, are not constructed with a session identifier and
cannot subscribe to the session's bus. -/
theorem c7_session_wiring_bug :
    "message_bus" ∈ mcpAgentsMessageProtocolImports ∧
    "message_bus" ∉ messageProtocolTopLevelNames ∧
    coordinatorIngestionAgentArgCount ≠ ingestionAgentCtorParamCount := by
  decide

end SpectraRAG
